import Mathlib

/-!
Shallow embedding of the SwarSeva rules engine
(`src/server/src/models/Service.js`, third schema revision: the
`MultilingualTextSchema` / `RequirementSchema` / `EligibilityCriteriaSchema` /
`FeeSchema` subschemas and the instance methods `getDetailsInLanguage`,
`checkEligibility`, `calculateFees`, `getServiceSummary`, `validateDocuments`).

Conventions of the embedding:
* JavaScript runtime values flowing through the engine are modelled by
  `JsValue` (number / string / boolean / null); a JavaScript `undefined`
  (absent field) is modelled by `Option.none` one level up.
* JavaScript numbers are modelled by `ℚ`.  Every multiplication performed by
  the engine (×0.5, ×1.5, ×0.75) is exact on the inputs the spec exercises.
* Mongoose `Mixed` fields that the code compares with `=== null` are modelled
  by `Option JsValue`: `none` stands for an absent bound (read back as
  `undefined`, which fails the `=== null` test and every comparison), while
  a bound explicitly stored as `null` is `some JsValue.null`.
* The only statement in the engine that can raise at runtime on schema-valid
  data is `fee.waiver.description.en` (the `description` subdocument of a
  waiver is optional in `FeeSchema`); the surrounding `try`/`catch` of
  `calculateFees` is therefore modelled with `Except`, every other method
  body is total.
-/

namespace SwarSeva

/-- A JavaScript value as seen by the rules engine:
number, string, boolean, or `null`. -/
inductive JsValue where
  | num (q : ℚ)
  | str (s : String)
  | bool (b : Bool)
  | null
deriving DecidableEq, Repr

/-- JavaScript truthiness of a `JsValue` (`0`, `""`, `false`, `null` are
falsy, everything else representable here is truthy). -/
def truthy : JsValue → Bool
  | .num q => q != 0
  | .str s => s != ""
  | .bool b => b
  | .null => false

/-- Truthiness of a possibly absent value (`undefined` is falsy). -/
def optTruthy : Option JsValue → Bool
  | some v => truthy v
  | none => false

/-- Value of a nonempty digit run, `none` when a non-digit appears or the
run is empty. -/
def digitsVal (cs : List Char) : Option ℕ :=
  match cs with
  | [] => none
  | _ =>
    cs.foldl
      (fun acc c =>
        match acc with
        | none => none
        | some n => if c.isDigit then some (10 * n + (c.toNat - 48)) else none)
      (some 0)

/-- JavaScript `ToNumber` on strings, restricted to plain decimal literals
with an optional sign and fractional part (`""` and whitespace-only strings
convert to `0`; anything unparsable is NaN, modelled as `none`).  The engine
never feeds exponent or hex literals through this conversion. -/
def strToNumber (s : String) : Option ℚ :=
  let t := s.trim
  if t = "" then some 0
  else
    let (sign, body) : ℚ × List Char :=
      match t.toList with
      | '-' :: rest => (-1, rest)
      | '+' :: rest => (1, rest)
      | cs => (1, cs)
    match body.splitOn '.' with
    | [intPart] => (digitsVal intPart).map (fun n => sign * n)
    | [intPart, fracPart] =>
      match intPart, fracPart with
      | [], [] => none
      | [], f => (digitsVal f).map (fun n => sign * n / (10 : ℚ) ^ f.length)
      | i, [] => (digitsVal i).map (fun n => sign * n)
      | i, f =>
        match digitsVal i, digitsVal f with
        | some ni, some nf => some (sign * (ni + nf / (10 : ℚ) ^ f.length))
        | _, _ => none
    | _ => none

/-- JavaScript `ToNumber` (`none` models NaN). -/
def toNumber : JsValue → Option ℚ
  | .num q => some q
  | .null => some 0
  | .bool b => some (if b then 1 else 0)
  | .str s => strToNumber s

/-- JavaScript `a >= b` (string/string compares lexicographically, any
other pair numerically; a NaN operand yields `false`). -/
def jsGE : JsValue → JsValue → Bool
  | .str a, .str b => !(decide (a < b))
  | a, b =>
    match toNumber a, toNumber b with
    | some x, some y => decide (x ≥ y)
    | _, _ => false

/-- JavaScript `a <= b`. -/
def jsLE : JsValue → JsValue → Bool
  | .str a, .str b => !(decide (b < a))
  | a, b =>
    match toNumber a, toNumber b with
    | some x, some y => decide (x ≤ y)
    | _, _ => false

/-- JavaScript `a < b`. -/
def jsLT : JsValue → JsValue → Bool
  | .str a, .str b => decide (a < b)
  | a, b =>
    match toNumber a, toNumber b with
    | some x, some y => decide (x < y)
    | _, _ => false

/-- JavaScript `a > b`. -/
def jsGT : JsValue → JsValue → Bool
  | .str a, .str b => decide (b < a)
  | a, b =>
    match toNumber a, toNumber b with
    | some x, some y => decide (x > y)
    | _, _ => false

/-- JavaScript strict equality `===` on the values the engine handles. -/
def strictEq : JsValue → JsValue → Bool
  | .num a, .num b => a == b
  | .str a, .str b => a == b
  | .bool a, .bool b => a == b
  | .null, .null => true
  | _, _ => false

/-- A multilingual text object (`MultilingualTextSchema`): a record of
language code to text, embedded as an association list. -/
abbrev MLText := List (String × String)

/-- Property read `field[lang]` on a multilingual text object
(`none` models `undefined`). -/
def getML (f : MLText) (lang : String) : Option String :=
  f.lookup lang

/-- JavaScript `a || b` on possibly absent strings (`undefined` and `""`
are falsy). -/
def jsOrStr (a b : Option String) : Option String :=
  match a with
  | some s => if s = "" then b else some s
  | none => b

/-- The `getFallbackText` helper defined identically inside
`getDetailsInLanguage` and `getServiceSummary`:
`if (!field) return null; return field[language] || field.en || null;`. -/
def getFallbackText (language : String) (field : Option MLText) : Option String :=
  match field with
  | none => none
  | some f => jsOrStr (getML f language) (jsOrStr (getML f "en") none)

/-- Multilingual resolution as worded by the spec (section 4.4): return
`field[requestedLanguage]` if present and non-empty, else `field["en"]` if
present and non-empty, else null.  Kept separate from `getFallbackText`
(which is translated from the source) so the two can be compared. -/
def resolveSpec (field : Option MLText) (lang : String) : Option String :=
  match field with
  | none => none
  | some f =>
    match getML f lang with
    | some s =>
      if s = "" then
        match getML f "en" with
        | some t => if t = "" then none else some t
        | none => none
      else some s
    | none =>
      match getML f "en" with
      | some t => if t = "" then none else some t
      | none => none

/-- A calendar date, standing for a JavaScript `Date` as observed through
`getFullYear` / `getMonth` / `getDate`.  Months are 1-based here while
JavaScript's `getMonth` is 0-based; only order comparisons between two
month values are performed, so the shift is immaterial. -/
structure SimpleDate where
  year : ℤ
  month : ℕ
  day : ℕ
deriving DecidableEq, Repr

/-- The age computation of `checkEligibility` (case `'age'`):
`today.getFullYear() - birthDate.getFullYear()` minus one when today's
month/day precedes the birthday's month/day. -/
def computeAge (today birth : SimpleDate) : ℤ :=
  today.year - birth.year -
    (if today.month < birth.month ∨ (today.month = birth.month ∧ today.day < birth.day)
     then 1 else 0)

/-- The `criteriaType` enum of `EligibilityCriteriaSchema`. -/
inductive CriteriaType where
  | age | income | residence | education | gender | marital
  | occupation | category | disability | other
deriving DecidableEq, Repr

/-- The string stored for a `criteriaType` (used as the `field` name of a
missing-data entry for every case except `'age'`). -/
def criteriaTypeName : CriteriaType → String
  | .age => "age"
  | .income => "income"
  | .residence => "residence"
  | .education => "education"
  | .gender => "gender"
  | .marital => "marital"
  | .occupation => "occupation"
  | .category => "category"
  | .disability => "disability"
  | .other => "other"

/-- The `validationMethod` enum of `EligibilityCriteriaSchema`. -/
inductive ValidationMethod where
  | range | exact | minimum | maximum | list | boolean | custom
deriving DecidableEq, Repr

/-- One eligibility criterion (`EligibilityCriteriaSchema`).  `minValue` and
`maxValue` are `Mixed` in the schema; they are embedded as optional
`JsValue`s with `none` standing for an absent bound (read as `undefined`)
and `some JsValue.null` for a bound explicitly stored as `null` — the
code's `criteria.minValue === null` test distinguishes the two: it is true
only for the stored `null`, while comparisons against an absent
(`undefined`) bound are all false. -/
structure Criterion where
  criteriaType : CriteriaType
  name : MLText
  minValue : Option JsValue := none
  maxValue : Option JsValue := none
  allowedValues : List String := []
  validationMethod : ValidationMethod
deriving DecidableEq, Repr

/-- The `address` sub-record of a user profile (only `state` is read). -/
structure UserAddress where
  state : Option JsValue := none
deriving DecidableEq, Repr

/-- The `education` sub-record of a user profile (only `level` is read). -/
structure UserEducation where
  level : Option JsValue := none
deriving DecidableEq, Repr

/-- The open user-profile record passed to `checkEligibility` and
`calculateFees`.  Every field is optional (`none` models an absent
property, i.e. JavaScript `undefined`); an explicitly stored `null` is
`some JsValue.null`.  The `other` field is the custom field consulted by
the `default` branch of the criteria-type switch (the `criteriaType` enum
admits only `'other'` beyond the named cases, so the lower-cased custom
field name is always `"other"`). -/
structure UserData where
  dateOfBirth : Option SimpleDate := none
  income : Option JsValue := none
  address : Option UserAddress := none
  education : Option UserEducation := none
  gender : Option JsValue := none
  maritalStatus : Option JsValue := none
  occupation : Option JsValue := none
  category : Option JsValue := none
  hasDisability : Option JsValue := none
  other : Option JsValue := none
  age : Option JsValue := none
  isBPL : Option JsValue := none
  isStudent : Option JsValue := none
deriving DecidableEq, Repr

/-- Resolution of the user value consulted by a criterion (the
`switch (criteria.criteriaType)` of `checkEligibility`).  `today` stands for
the `new Date()` taken when the method runs; `none` is JavaScript
`undefined`, i.e. the datum is missing. -/
def resolveUserValue (today : SimpleDate) (u : UserData) (c : Criterion) : Option JsValue :=
  match c.criteriaType with
  | .age =>
    match u.dateOfBirth with
    | none => none
    | some birth => some (.num (computeAge today birth))
  | .income => u.income
  | .residence =>
    match u.address with
    | none => none
    | some a => a.state
  | .education =>
    match u.education with
    | none => none
    | some e => e.level
  | .gender => u.gender
  | .marital => u.maritalStatus
  | .occupation => u.occupation
  | .category => u.category
  | .disability => u.hasDisability
  | .other => u.other

/-- JavaScript `a >= b` where `b` may be `undefined` (an absent `Mixed`
bound): any comparison with `undefined` is false (NaN). -/
def jsGEu (a : JsValue) (b : Option JsValue) : Bool :=
  match b with
  | some m => jsGE a m
  | none => false

/-- JavaScript `a <= b` where `b` may be `undefined`. -/
def jsLEu (a : JsValue) (b : Option JsValue) : Bool :=
  match b with
  | some m => jsLE a m
  | none => false

/-- JavaScript `a === b` where `b` may be `undefined`; `a` here is an
already-present user value, so it is never `undefined` itself and the
comparison is false when `b` is. -/
def strictEqU (a : JsValue) (b : Option JsValue) : Bool :=
  match b with
  | some m => strictEq a m
  | none => false

/-- The `switch (criteria.validationMethod)` of `checkEligibility`, given
the (present) user value.  The `criteria.minValue === null` /
`criteria.maxValue === null` escapes are true only for a bound stored as
`null`; an absent bound reads as `undefined`, fails the `=== null` test and
makes every comparison false. -/
def evalMethod (c : Criterion) (v : JsValue) : Bool :=
  match c.validationMethod with
  | .range =>
    (c.minValue = some JsValue.null || jsGEu v c.minValue) &&
    (c.maxValue = some JsValue.null || jsLEu v c.maxValue)
  | .exact => strictEqU v c.minValue
  | .minimum => jsGEu v c.minValue
  | .maximum => jsLEu v c.maxValue
  | .list =>
    match v with
    | .str s => c.allowedValues.contains s
    | _ => false
  | .boolean => truthy v
  | .custom => true

/-- The display name `criteria.name.en || 'Unnamed criterion'`. -/
def criteriaDisplayName (c : Criterion) : String :=
  ((jsOrStr (getML c.name "en") none).getD "Unnamed criterion")

/-- An entry of `results.failedCriteria` (the informational `required`
string built alongside is not modelled). -/
structure FailedEntry where
  type : CriteriaType
  name : String
  userValue : JsValue
deriving DecidableEq, Repr

/-- An entry of `results.missingData`. -/
structure MissingEntry where
  field : String
  criteria : String
deriving DecidableEq, Repr

/-- The `field` recorded when a criterion's datum is missing:
`'dateOfBirth'` for the age case, the criteria type otherwise. -/
def missingFieldName (c : Criterion) : String :=
  match c.criteriaType with
  | .age => "dateOfBirth"
  | t => criteriaTypeName t

/-- Tri-state eligibility verdict (`true`, `false`, or the string
`"unknown"`). -/
inductive Eligible where
  | yes | no | unknown
deriving DecidableEq, Repr

/-- Result of `checkEligibility`.  The empty-criteria early return carries
no `failedCriteria`/`missingData` properties in the source; it is embedded
with both lists empty. -/
structure EligResult where
  eligible : Eligible
  message : String
  failedCriteria : List FailedEntry := []
  missingData : List MissingEntry := []
deriving DecidableEq, Repr

/-- One step of the `forEach` over criteria: the accumulator carries the
`failedCriteria` and `missingData` lists being mutated. -/
def evalOne (today : SimpleDate) (u : UserData)
    (acc : List FailedEntry × List MissingEntry) (c : Criterion) :
    List FailedEntry × List MissingEntry :=
  match resolveUserValue today u c with
  | none => (acc.1, acc.2 ++ [⟨missingFieldName c, criteriaDisplayName c⟩])
  | some v =>
    if evalMethod c v then acc
    else (acc.1 ++ [⟨c.criteriaType, criteriaDisplayName c, v⟩], acc.2)

/-- The method `ServiceSchema.methods.checkEligibility`, with the evaluation date
(`new Date()`) passed explicitly. -/
def checkEligibility (today : SimpleDate) (criteria : List Criterion) (u : UserData) :
    EligResult :=
  if criteria.length = 0 then
    { eligible := .yes, message := "No eligibility criteria specified" }
  else
    let p := criteria.foldl (evalOne today u) ([], [])
    if p.1.length > 0 then
      { eligible := .no, message := "User does not meet eligibility criteria",
        failedCriteria := p.1, missingData := p.2 }
    else if p.2.length > 0 then
      { eligible := .unknown,
        message := "Missing required information to determine eligibility",
        failedCriteria := p.1, missingData := p.2 }
    else
      { eligible := .yes, message := "User meets all eligibility criteria",
        failedCriteria := p.1, missingData := p.2 }

/-- A `variableFactors` entry of `FeeSchema` (`calculation` is never read
by the engine). -/
structure VariableFactor where
  factor : String
  calculation : Option String := none
deriving DecidableEq, Repr

/-- The `waiver` sub-record of `FeeSchema`.  `eligibility` is an array path
(initialized to `[]` by the store), while `description` is an optional
subdocument: when it was never set, reading it yields `undefined`, so it is
embedded as an `Option`. -/
structure FeeWaiver where
  eligibility : List String := []
  description : Option MLText := none
deriving DecidableEq, Repr

/-- One fee rule (`FeeSchema`). -/
structure FeeRule where
  feeType : String
  name : MLText
  description : Option MLText := none
  amount : ℚ
  currency : String := "INR"
  variableFactors : List VariableFactor := []
  waiver : Option FeeWaiver := none
deriving DecidableEq, Repr

/-- The per-category waiver predicate of `calculateFees`
(`fee.waiver.eligibility.some(category => ...)` body). -/
def waiverMatches (u : UserData) (category : String) : Bool :=
  if category = "bpl" && optTruthy u.isBPL then true
  else if category = "senior" &&
      (match u.age with | some a => jsGE a (.num 60) | none => false) then true
  else if category = "student" && optTruthy u.isStudent then true
  else if category = "disability" && optTruthy u.hasDisability then true
  else if category = "female" &&
      (match u.gender with | some g => strictEq g (.str "female") | none => false) then true
  else false

/-- One `variableFactors` entry applied to the running fee amount
(the body of `fee.variableFactors.forEach`): an `'income'` adjustment
followed by an `'age'` adjustment, each gated on JavaScript truthiness of
the corresponding profile field. -/
def applyFactor (u : UserData) (amount : ℚ) (vf : VariableFactor) : ℚ :=
  let amount1 :=
    if vf.factor = "income" && optTruthy u.income then
      match u.income with
      | some inc =>
        if jsLT inc (.num 300000) then amount * (1 / 2)
        else if jsGT inc (.num 1000000) then amount * (3 / 2)
        else amount
      | none => amount
    else amount
  if vf.factor = "age" && optTruthy u.age then
    match u.age with
    | some a =>
      if jsLT a (.num 18) then amount1 * (1 / 2)
      else if jsGE a (.num 60) then amount1 * (3 / 4)
      else amount1
    | none => amount1
  else amount1

/-- An entry of the `breakdown` array produced by `calculateFees`. -/
structure BreakdownEntry where
  feeType : String
  name : Option String
  amount : ℚ
  description : Option String
deriving DecidableEq, Repr

/-- An entry of the `waivers` array produced by `calculateFees`. -/
structure WaiverEntry where
  feeType : String
  name : Option String
  amount : ℚ
  reason : String
deriving DecidableEq, Repr

/-- The mutable state threaded through the `fees.forEach` of
`calculateFees`. -/
structure FeeAcc where
  totalAmount : ℚ := 0
  breakdown : List BreakdownEntry := []
  waivers : List WaiverEntry := []
deriving DecidableEq, Repr

/-- Result object of `calculateFees`.  `waivers`, `message` and `error` are
optional because the three return shapes of the source (normal, empty-fees,
caught-error) carry different sets of properties. -/
structure FeeResult where
  totalAmount : ℚ
  currency : String
  breakdown : List BreakdownEntry
  waivers : Option (List WaiverEntry) := none
  message : Option String := none
  error : Option String := none
deriving DecidableEq, Repr

/-- Processing of a single fee rule inside the `try` of `calculateFees`.
The only throw site is `fee.waiver.description.en` on a matched waiver whose
`description` subdocument is absent (a `TypeError`, modelled as
`Except.error ()`). -/
def processFee (u : UserData) (acc : FeeAcc) (fee : FeeRule) : Except Unit FeeAcc :=
  let waivedStep : Except Unit (Bool × FeeAcc) :=
    match fee.waiver with
    | some w =>
      if w.eligibility.length > 0 then
        if w.eligibility.any (waiverMatches u) then
          match w.description with
          | none => .error ()
          | some d =>
            let reason := (jsOrStr (getML d "en") none).getD "Eligible for fee waiver"
            .ok (true,
              { acc with
                waivers := acc.waivers ++
                  [⟨fee.feeType, getML fee.name "en", fee.amount, reason⟩] })
        else .ok (false, acc)
      else .ok (false, acc)
    | none => .ok (false, acc)
  match waivedStep with
  | .error e => .error e
  | .ok (true, acc') => .ok acc'
  | .ok (false, acc') =>
    let feeAmount :=
      if fee.variableFactors.length > 0 then
        fee.variableFactors.foldl (applyFactor u) fee.amount
      else fee.amount
    .ok
      { acc' with
        breakdown := acc'.breakdown ++
          [⟨fee.feeType, getML fee.name "en", feeAmount,
            match fee.description with
            | some d => getML d "en"
            | none => none⟩],
        totalAmount := acc'.totalAmount + feeAmount }

/-- The method `ServiceSchema.methods.calculateFees`. -/
def calculateFees (fees : List FeeRule) (u : UserData) : FeeResult :=
  if fees.length = 0 then
    { totalAmount := 0, currency := "INR", breakdown := [],
      message := some "No fees associated with this service" }
  else
    let currency :=
      match fees.head? with
      | some f => if f.currency = "" then "INR" else f.currency
      | none => "INR"
    match fees.foldlM (processFee u) {} with
    | .ok acc =>
      { totalAmount := acc.totalAmount, currency := currency,
        breakdown := acc.breakdown, waivers := some acc.waivers }
    | .error _ =>
      { totalAmount := 0, currency := "INR", breakdown := [],
        error := some "Error calculating fees" }

/-- One document requirement (`RequirementSchema`); `validationRules` is
never read by `validateDocuments`.  `maxFileSizeKB` is an optional number
(the source gates the size check on its truthiness). -/
structure Requirement where
  documentType : String
  name : MLText
  isMandatory : Bool := true
  allowedFileTypes : List String := []
  maxFileSizeKB : Option ℚ := none
deriving DecidableEq, Repr

/-- A submitted document, `{type, file, sizeKB}` per the engine's input
contract. -/
structure DocObj where
  type : String
  file : String
  sizeKB : ℚ
deriving DecidableEq, Repr

/-- The extension computation `document.file.split('.').pop().toLowerCase()`. -/
def fileExt (file : String) : String :=
  ((file.splitOn ".").getLastD "").toLower

/-- An entry of `validDocuments`. -/
structure ValidDoc where
  type : String
  name : Option String
deriving DecidableEq, Repr

/-- An entry of `invalidDocuments`. -/
structure InvalidDoc where
  type : String
  reason : String
deriving DecidableEq, Repr

/-- An entry of `missingMandatory`: the non-array early return pushes bare
`documentType` strings, the main path pushes `{type, name}` records. -/
inductive MissingDoc where
  | bare (type : String)
  | entry (type : String) (name : Option String)
deriving DecidableEq, Repr

/-- The mutable result record of `validateDocuments` during the two
passes. -/
structure DocAcc where
  valid : Bool := true
  validDocuments : List ValidDoc := []
  invalidDocuments : List InvalidDoc := []
  missingMandatory : List MissingDoc := []
deriving DecidableEq, Repr

/-- Result object of `validateDocuments`. -/
structure DocResult where
  valid : Bool
  message : String
  validDocuments : List ValidDoc := []
  invalidDocuments : List InvalidDoc := []
  missingMandatory : List MissingDoc := []
deriving DecidableEq, Repr

/-- First pass of `validateDocuments`: a mandatory requirement with no
submitted document of matching type is recorded and fails validation. -/
def reqStep (docs : List DocObj) (acc : DocAcc) (req : Requirement) : DocAcc :=
  if req.isMandatory then
    if docs.any (fun d => d.type == req.documentType) then acc
    else
      { acc with
        missingMandatory := acc.missingMandatory ++
          [.entry req.documentType (getML req.name "en")],
        valid := false }
  else acc

/-- Whether a submitted document trips the file-type check of the second
pass. -/
def typeFails (req : Requirement) (d : DocObj) : Bool :=
  req.allowedFileTypes.length > 0 && !(req.allowedFileTypes.contains (fileExt d.file))

/-- Whether a submitted document trips the file-size check of the second
pass (gated on the truthiness of `maxFileSizeKB`). -/
def sizeFails (req : Requirement) (d : DocObj) : Bool :=
  match req.maxFileSizeKB with
  | some m => m != 0 && decide (d.sizeKB > m)
  | none => false

/-- Second pass of `validateDocuments`: per submitted document, find the
first requirement of the same `documentType`; an unmatched document is
recorded as invalid without failing validation, a type or size mismatch is
recorded and fails validation, anything else is recorded as valid. -/
def docStep (reqs : List Requirement) (acc : DocAcc) (d : DocObj) : DocAcc :=
  match reqs.find? (fun r => r.documentType == d.type) with
  | none =>
    { acc with
      invalidDocuments := acc.invalidDocuments ++
        [⟨d.type, "Document type not required for this service"⟩] }
  | some req =>
    if typeFails req d then
      { acc with
        invalidDocuments := acc.invalidDocuments ++
          [⟨d.type, "Invalid file type. Allowed: " ++
            String.intercalate ", " req.allowedFileTypes⟩],
        valid := false }
    else if sizeFails req d then
      { acc with
        invalidDocuments := acc.invalidDocuments ++
          [⟨d.type, "File too large. Maximum size: " ++
            toString (req.maxFileSizeKB.getD 0) ++ "KB"⟩],
        valid := false }
    else
      { acc with
        validDocuments := acc.validDocuments ++ [⟨d.type, getML req.name "en"⟩] }

/-- Whether the second pass marks the submission invalid because of this
document (either check of `docStep` trips against the found requirement). -/
def docFails (reqs : List Requirement) (d : DocObj) : Bool :=
  match reqs.find? (fun r => r.documentType == d.type) with
  | none => false
  | some req => typeFails req d || sizeFails req d

/-- The method `ServiceSchema.methods.validateDocuments`.  A `documents` argument that
is absent, `null`, or not an array is `none`; the source returns a plain
result object for it (no exception is raised).  Under the typed input
shapes the `try` body has no throw site, so the `catch` branch is
unreachable and not modelled. -/
def validateDocuments (reqs : List Requirement) (documents : Option (List DocObj)) :
    DocResult :=
  match documents with
  | none =>
    { valid := false,
      message := "No documents provided or invalid format",
      missingMandatory :=
        (reqs.filter (fun r => r.isMandatory)).map (fun r => .bare r.documentType) }
  | some docs =>
    let a1 := reqs.foldl (reqStep docs) {}
    let a2 := docs.foldl (docStep reqs) a1
    let msg :=
      if a2.valid then "All required documents validated successfully"
      else if a2.missingMandatory.length > 0 then "Missing mandatory documents"
      else "Some documents failed validation"
    { valid := a2.valid, message := msg,
      validDocuments := a2.validDocuments,
      invalidDocuments := a2.invalidDocuments,
      missingMandatory := a2.missingMandatory }

/-- The failed-criteria entry a criterion contributes, when it does. -/
def failOf (today : SimpleDate) (u : UserData) (c : Criterion) : Option FailedEntry :=
  match resolveUserValue today u c with
  | none => none
  | some v =>
    if evalMethod c v then none
    else some ⟨c.criteriaType, criteriaDisplayName c, v⟩

/-- The missing-data entry a criterion contributes, when it does. -/
def missOf (today : SimpleDate) (u : UserData) (c : Criterion) : Option MissingEntry :=
  match resolveUserValue today u c with
  | none => some ⟨missingFieldName c, criteriaDisplayName c⟩
  | some _ => none

theorem evalOne_foldl (today : SimpleDate) (u : UserData) :
    ∀ (criteria : List Criterion) (f : List FailedEntry) (m : List MissingEntry),
    criteria.foldl (evalOne today u) (f, m) =
      (f ++ criteria.filterMap (failOf today u),
       m ++ criteria.filterMap (missOf today u)) := by
  intro criteria
  induction criteria with
  | nil => intro f m; simp
  | cons c cs ih =>
    intro f m
    simp only [List.foldl_cons, List.filterMap_cons]
    rcases hres : resolveUserValue today u c with _ | v
    · have hstep : evalOne today u (f, m) c =
          (f, m ++ [⟨missingFieldName c, criteriaDisplayName c⟩]) := by
        simp [evalOne, hres]
      rw [hstep, ih]
      simp [failOf, missOf, hres]
    · by_cases hev : evalMethod c v = true
      · have hstep : evalOne today u (f, m) c = (f, m) := by
          simp [evalOne, hres, hev]
        rw [hstep, ih]
        simp [failOf, missOf, hres, hev]
      · have hstep : evalOne today u (f, m) c =
            (f ++ [⟨c.criteriaType, criteriaDisplayName c, v⟩], m) := by
          simp [evalOne, hres, hev]
        rw [hstep, ih]
        simp [failOf, missOf, hres, hev]

theorem failOf_isSome_iff (today : SimpleDate) (u : UserData) (c : Criterion) :
    (failOf today u c).isSome = true ↔
      ∃ v, resolveUserValue today u c = some v ∧ evalMethod c v = false := by
  unfold failOf
  rcases hres : resolveUserValue today u c with _ | v
  · simp
  · by_cases hev : evalMethod c v = true <;> simp [hev]

theorem missOf_isSome_iff (today : SimpleDate) (u : UserData) (c : Criterion) :
    (missOf today u c).isSome = true ↔ resolveUserValue today u c = none := by
  unfold missOf
  rcases hres : resolveUserValue today u c with _ | v <;> simp

theorem filterMap_ne_nil_iff {α β : Type} (f : α → Option β) (l : List α) :
    l.filterMap f ≠ [] ↔ ∃ a ∈ l, (f a).isSome = true := by
  constructor
  · intro h
    rcases List.exists_mem_of_ne_nil _ h with ⟨b, hb⟩
    rcases (List.mem_filterMap).1 hb with ⟨a, ha, hfa⟩
    exact ⟨a, ha, by simp [hfa]⟩
  · rintro ⟨a, ha, hfa⟩ hnil
    rcases Option.isSome_iff_exists.1 hfa with ⟨b, hb⟩
    have : b ∈ l.filterMap f := (List.mem_filterMap).2 ⟨a, ha, hb⟩
    simp [hnil] at this

/-- C1: for every non-empty criteria list and every user profile,
`checkEligibility` yields `eligible = false` exactly when some evaluated
criterion fails; with no failure, it yields `eligible = "unknown"` (with the
insufficient-information message) exactly when some criterion's required
user field was missing; and `eligible = true` exactly when nothing failed
and nothing was missing.  In particular a missing field alone never
produces `false`. -/
theorem checkEligibility_aggregate (today : SimpleDate) (criteria : List Criterion)
    (u : UserData) (hne : criteria ≠ []) :
    ((checkEligibility today criteria u).eligible = .no ↔
      ∃ c ∈ criteria, ∃ v, resolveUserValue today u c = some v ∧ evalMethod c v = false) ∧
    ((checkEligibility today criteria u).eligible = .unknown ↔
      (¬ ∃ c ∈ criteria, ∃ v, resolveUserValue today u c = some v ∧ evalMethod c v = false) ∧
      ∃ c ∈ criteria, resolveUserValue today u c = none) ∧
    ((checkEligibility today criteria u).eligible = .yes ↔
      (¬ ∃ c ∈ criteria, ∃ v, resolveUserValue today u c = some v ∧ evalMethod c v = false) ∧
      ¬ ∃ c ∈ criteria, resolveUserValue today u c = none) ∧
    ((checkEligibility today criteria u).eligible = .unknown →
      (checkEligibility today criteria u).message =
        "Missing required information to determine eligibility") := by
  have hlen : ¬ criteria.length = 0 := by
    simpa [List.length_eq_zero] using hne
  have hFex : criteria.filterMap (failOf today u) ≠ [] ↔
      ∃ c ∈ criteria, ∃ v, resolveUserValue today u c = some v ∧ evalMethod c v = false := by
    rw [filterMap_ne_nil_iff]
    constructor
    · rintro ⟨c, hc, hs⟩
      exact ⟨c, hc, (failOf_isSome_iff today u c).1 hs⟩
    · rintro ⟨c, hc, hs⟩
      exact ⟨c, hc, (failOf_isSome_iff today u c).2 hs⟩
  have hMex : criteria.filterMap (missOf today u) ≠ [] ↔
      ∃ c ∈ criteria, resolveUserValue today u c = none := by
    rw [filterMap_ne_nil_iff]
    constructor
    · rintro ⟨c, hc, hs⟩
      exact ⟨c, hc, (missOf_isSome_iff today u c).1 hs⟩
    · rintro ⟨c, hc, hs⟩
      exact ⟨c, hc, (missOf_isSome_iff today u c).2 hs⟩
  unfold checkEligibility
  rw [if_neg hlen, evalOne_foldl]
  simp only [List.nil_append]
  by_cases hf : criteria.filterMap (failOf today u) = []
  · by_cases hm : criteria.filterMap (missOf today u) = []
    · rw [if_neg (by simp [hf]), if_neg (by simp [hm])]
      exact ⟨⟨fun h => Eligible.noConfusion h, fun hex => ((hFex.2 hex) hf).elim⟩,
             ⟨fun h => Eligible.noConfusion h, fun h2 => ((hMex.2 h2.2) hm).elim⟩,
             ⟨fun _ => ⟨fun hex => (hFex.2 hex) hf, fun hex => (hMex.2 hex) hm⟩,
              fun _ => rfl⟩,
             fun h => Eligible.noConfusion h⟩
    · rw [if_neg (by simp [hf]), if_pos (List.length_pos.2 hm)]
      exact ⟨⟨fun h => Eligible.noConfusion h, fun hex => ((hFex.2 hex) hf).elim⟩,
             ⟨fun _ => ⟨fun hex => (hFex.2 hex) hf, hMex.1 hm⟩, fun _ => rfl⟩,
             ⟨fun h => Eligible.noConfusion h, fun h2 => (h2.2 (hMex.1 hm)).elim⟩,
             fun _ => rfl⟩
  · rw [if_pos (List.length_pos.2 hf)]
    exact ⟨⟨fun _ => hFex.1 hf, fun _ => rfl⟩,
           ⟨fun h => Eligible.noConfusion h, fun h2 => (h2.1 (hFex.1 hf)).elim⟩,
           ⟨fun h => Eligible.noConfusion h, fun h2 => (h2.1 (hFex.1 hf)).elim⟩,
           fun h => Eligible.noConfusion h⟩

/-- Witness for C1 at a concrete input: a single income criterion
(minimum 100000) against a profile whose income is the explicit value
`null` evaluates and fails, so the verdict is `eligible = false`. -/
theorem checkEligibility_aggregate_witness :
    (checkEligibility ⟨2024, 6, 15⟩
      [⟨.income, [("en", "Income")], some (.num 100000), none, [], .minimum⟩]
      { income := some .null }).eligible = .no :=
  (checkEligibility_aggregate ⟨2024, 6, 15⟩
      [⟨.income, [("en", "Income")], some (.num 100000), none, [], .minimum⟩]
      { income := some .null } (by simp)).1.mpr
    ⟨⟨.income, [("en", "Income")], some (.num 100000), none, [], .minimum⟩,
      by simp, .null, rfl, by decide⟩

/-- A `Mixed` bound that is either explicitly stored as `null` or holds a
number — the only shape under which a bound imposes no constraint or a
numeric one. -/
def nullableNum : Option ℚ → JsValue
  | some q => .num q
  | none => .null

/-- Counterexample for C4 as stated: the claim says an absent (unset) bound
imposes no constraint, so a user value of 30 should pass a range criterion
with both bounds absent, and one with only `minValue = 18` set.  The source
tests `criteria.minValue === null`, which is false for an absent bound
(read as `undefined`), and `userValue >= undefined` / `<= undefined` are
false, so both checks fail instead. -/
theorem range_absent_bound_counterexample :
    evalMethod ⟨.age, [], none, none, [], .range⟩ (.num 30) = false ∧
    evalMethod ⟨.age, [], some (.num 18), none, [], .range⟩ (.num 30) = false := by
  exact ⟨by decide, by decide⟩

/-- C4 as amended: a `range` criterion whose bounds are each either a
number or explicitly stored as `null` passes a present numeric user value
exactly when the value is at least the numeric lower bound (if any) and at
most the numeric upper bound (if any) — a `null` bound imposes no
constraint; a bound that is absent (`undefined`) instead makes the range
check fail outright, whichever side it is on.  With bounds 18 and 60, the
values 17/18/60/61 fail/pass/pass/fail. -/
theorem range_validation_nullable :
    (∀ (ct : CriteriaType) (nm : MLText) (av : List String)
        (mn mx : Option ℚ) (v : ℚ),
      evalMethod ⟨ct, nm, some (nullableNum mn), some (nullableNum mx), av, .range⟩
          (.num v) = true ↔
        (∀ m ∈ mn, m ≤ v) ∧ (∀ m ∈ mx, v ≤ m)) ∧
    (∀ (ct : CriteriaType) (nm : MLText) (av : List String)
        (mx : Option JsValue) (v : JsValue),
      evalMethod ⟨ct, nm, none, mx, av, .range⟩ v = false) ∧
    (∀ (ct : CriteriaType) (nm : MLText) (av : List String)
        (mn : Option JsValue) (v : JsValue),
      evalMethod ⟨ct, nm, mn, none, av, .range⟩ v = false) ∧
    evalMethod ⟨.age, [], some (.num 18), some (.num 60), [], .range⟩ (.num 17) = false ∧
    evalMethod ⟨.age, [], some (.num 18), some (.num 60), [], .range⟩ (.num 18) = true ∧
    evalMethod ⟨.age, [], some (.num 18), some (.num 60), [], .range⟩ (.num 60) = true ∧
    evalMethod ⟨.age, [], some (.num 18), some (.num 60), [], .range⟩ (.num 61) = false := by
  refine ⟨?_, ?_, ?_, by decide, by decide, by decide, by decide⟩
  · intro ct nm av mn mx v
    cases mn <;> cases mx <;>
      simp [evalMethod, nullableNum, jsGEu, jsLEu, jsGE, jsLE, toNumber]
  · intro ct nm av mx v
    simp [evalMethod, jsGEu]
  · intro ct nm av mn v
    simp [evalMethod, jsLEu]

/-- Witness for C4 (amended) at a concrete input: with lower bound 18 and
upper bound 60 a user value of 20 passes the range check. -/
theorem range_validation_nullable_witness :
    evalMethod ⟨.age, [], some (.num 18), some (.num 60), [], .range⟩ (.num 20) = true :=
  (range_validation_nullable.1 .age [] [] (some 18) (some 60) 20).mpr
    ⟨by intro m hm; cases hm; norm_num, by intro m hm; cases hm; norm_num⟩

/-- C5: for an `age` criterion, `checkEligibility` resolves the user value
from `dateOfBirth` as the calendar-year difference between the evaluation
date and the birth date, minus one exactly when the evaluation month/day
precedes the birth month/day; for birth date 2000-06-15 the age is 23 on
2024-06-14 and 24 on both 2024-06-15 and 2024-06-16. -/
theorem age_from_dateOfBirth :
    (∀ (today birth : SimpleDate) (u : UserData) (c : Criterion),
      c.criteriaType = .age → u.dateOfBirth = some birth →
      resolveUserValue today u c =
        some (.num (today.year - birth.year -
          (if today.month < birth.month ∨
              (today.month = birth.month ∧ today.day < birth.day)
           then 1 else 0)))) ∧
    computeAge ⟨2024, 6, 14⟩ ⟨2000, 6, 15⟩ = 23 ∧
    computeAge ⟨2024, 6, 15⟩ ⟨2000, 6, 15⟩ = 24 ∧
    computeAge ⟨2024, 6, 16⟩ ⟨2000, 6, 15⟩ = 24 := by
  refine ⟨?_, by decide, by decide, by decide⟩
  intro today birth u c hct hdob
  rcases c with ⟨ct, nm, mn, mx, av, vm⟩
  cases hct
  simp [resolveUserValue, hdob, computeAge]

/-- Witness for C5 at a concrete input: an age criterion against birth date
2000-06-15 evaluated on 2024-06-14 resolves to the numeric age 23. -/
theorem age_from_dateOfBirth_witness :
    resolveUserValue ⟨2024, 6, 14⟩ { dateOfBirth := some ⟨2000, 6, 15⟩ }
      ⟨.age, [], none, none, [], .range⟩ = some (.num 23) := by
  have h := age_from_dateOfBirth.1 ⟨2024, 6, 14⟩ ⟨2000, 6, 15⟩
    { dateOfBirth := some ⟨2000, 6, 15⟩ } ⟨.age, [], none, none, [], .range⟩ rfl rfl
  norm_num at h
  exact h

/-- C8: the multilingual fallback used by `getDetailsInLanguage` and
`getServiceSummary` agrees with the spec's resolution rule — the requested
language's text when present and non-empty, else the English text when
present and non-empty, else null; `{en: "Hello"}` requested in `"hi"`
resolves to `"Hello"`, and the empty field resolves to null. -/
theorem multilingual_resolution :
    (∀ (field : Option MLText) (lang : String),
      getFallbackText lang field = resolveSpec field lang) ∧
    getFallbackText "hi" (some [("en", "Hello")]) = some "Hello" ∧
    getFallbackText "hi" (some ([] : MLText)) = none := by
  refine ⟨?_, rfl, rfl⟩
  intro field lang
  rcases field with _ | f
  · rfl
  · rcases h1 : getML f lang with _ | s
    · rcases h2 : getML f "en" with _ | t
      · simp [getFallbackText, resolveSpec, jsOrStr, h1, h2]
      · by_cases ht : t = "" <;>
          simp [getFallbackText, resolveSpec, jsOrStr, h1, h2, ht]
    · by_cases hs : s = ""
      · rcases h2 : getML f "en" with _ | t
        · simp [getFallbackText, resolveSpec, jsOrStr, h1, h2, hs]
        · by_cases ht : t = "" <;>
            simp [getFallbackText, resolveSpec, jsOrStr, h1, h2, hs, ht]
      · simp [getFallbackText, resolveSpec, jsOrStr, h1, hs]

/-- The `missingData` list produced by `checkEligibility` on a non-empty
criteria list: exactly the criteria whose resolved user value is
`undefined`, in order. -/
theorem checkEligibility_missingData (today : SimpleDate) (criteria : List Criterion)
    (u : UserData) (hne : criteria ≠ []) :
    (checkEligibility today criteria u).missingData =
      criteria.filterMap (missOf today u) := by
  have hlen : ¬ criteria.length = 0 := by
    simpa [List.length_eq_zero] using hne
  unfold checkEligibility
  rw [if_neg hlen, evalOne_foldl]
  simp only [List.nil_append]
  split
  · rfl
  · split <;> rfl

theorem filterMap_missOf_eq (today : SimpleDate) (u : UserData) :
    ∀ criteria : List Criterion,
    criteria.filterMap (missOf today u) =
      (criteria.filter (fun c => (resolveUserValue today u c).isNone)).map
        (fun c => (⟨missingFieldName c, criteriaDisplayName c⟩ : MissingEntry)) := by
  intro criteria
  induction criteria with
  | nil => rfl
  | cons c cs ih =>
    rcases hres : resolveUserValue today u c with _ | v <;>
      simp [missOf, hres, ih]

/-- C10: `checkEligibility` records a missing-data entry for a criterion
exactly when the resolved user value is `undefined`; a value explicitly set
to `null` counts as present and is evaluated, so `income: null` under a
minimum-income criterion fails that criterion and yields `eligible = false`
rather than `"unknown"`. -/
theorem missing_iff_undefined (today : SimpleDate) (criteria : List Criterion)
    (u : UserData) (hne : criteria ≠ []) :
    ((checkEligibility today criteria u).missingData =
      (criteria.filter (fun c => (resolveUserValue today u c).isNone)).map
        (fun c => ⟨missingFieldName c, criteriaDisplayName c⟩)) ∧
    (∀ c : Criterion, c.criteriaType = .income → u.income = some .null →
      resolveUserValue today u c = some .null) ∧
    (checkEligibility ⟨2024, 6, 15⟩
        [⟨.income, [("en", "Income")], some (.num 100000), none, [], .minimum⟩]
        { income := some .null } =
      ⟨.no, "User does not meet eligibility criteria",
        [⟨.income, "Income", .null⟩], []⟩) := by
  refine ⟨?_, ?_, by decide⟩
  · rw [checkEligibility_missingData today criteria u hne, filterMap_missOf_eq]
  · intro c hct hinc
    rcases c with ⟨ct, nm, mn, mx, av, vm⟩
    cases hct
    simp [resolveUserValue, hinc]

/-- Witness for C10 at a concrete input: an income criterion against a
profile whose income is the explicit value `null` resolves to that value
(it is not reported missing). -/
theorem missing_iff_undefined_witness :
    resolveUserValue ⟨2024, 6, 15⟩ { income := some JsValue.null }
      ⟨.income, [("en", "Income")], some (.num 100000), none, [], .minimum⟩ =
      some .null :=
  (missing_iff_undefined ⟨2024, 6, 15⟩
      [⟨.income, [("en", "Income")], some (.num 100000), none, [], .minimum⟩]
      { income := some .null } (by simp)).2.1
    ⟨.income, [("en", "Income")], some (.num 100000), none, [], .minimum⟩ rfl rfl

/-- C9: fee calculation never reads `dateOfBirth` — the senior-waiver test
and the `'age'` variable factor consult only `userData.age` — so two
profiles differing only in `dateOfBirth` obtain identical fee results. -/
theorem calculateFees_ignores_dateOfBirth (fees : List FeeRule) (u : UserData)
    (d : Option SimpleDate) :
    calculateFees fees { u with dateOfBirth := d } = calculateFees fees u := by
  cases u
  rfl

/-- Counterexample for C3 as stated: `userData.income = 0` is present and
below 300000, so the claim predicts a halved fee (500 from base 1000), but
the source gates the factor on JavaScript truthiness of `userData.income`,
so the value `0` skips the adjustment and the total stays 1000. -/
theorem income_factor_zero_counterexample :
    ((calculateFees
        [{ feeType := "application", name := [("en", "Fee")], amount := 1000,
           variableFactors := [⟨"income", none⟩] }]
        { income := some (.num 0) }).totalAmount = 1000) ∧
    ((0 : ℚ) < 300000) ∧
    ((calculateFees
        [{ feeType := "application", name := [("en", "Fee")], amount := 1000,
           variableFactors := [⟨"income", none⟩] }]
        { income := some (.num 0) }).totalAmount ≠ 500) := by
  refine ⟨?_, by norm_num, ?_⟩ <;>
    · simp only [calculateFees, processFee, applyFactor, waiverMatches, optTruthy, truthy,
        jsLT, jsGT, jsGE, toNumber, getML, jsOrStr, List.foldlM, List.foldl, List.length,
        List.head?]
      norm_num

/-- C3 as amended: for a non-waived rule with an `'income'` variable factor
and a profile whose income is a present, non-zero number, the fee amount is
multiplied by 0.5 below 300000, by 1.5 above 1000000, and left unchanged
otherwise; on base 1000 the incomes 250000 / 1500000 / 500000 yield totals
500 / 1500 / 1000. -/
theorem income_factor_truthy :
    (∀ (calcStr : Option String) (u : UserData) (base q : ℚ),
      u.income = some (.num q) → q ≠ 0 →
      applyFactor u base ⟨"income", calcStr⟩ =
        (if q < 300000 then base * (1 / 2)
         else if q > 1000000 then base * (3 / 2) else base)) ∧
    (calculateFees
        [{ feeType := "application", name := [("en", "Fee")], amount := 1000,
           variableFactors := [⟨"income", none⟩] }]
        { income := some (.num 250000) }).totalAmount = 500 ∧
    (calculateFees
        [{ feeType := "application", name := [("en", "Fee")], amount := 1000,
           variableFactors := [⟨"income", none⟩] }]
        { income := some (.num 1500000) }).totalAmount = 1500 ∧
    (calculateFees
        [{ feeType := "application", name := [("en", "Fee")], amount := 1000,
           variableFactors := [⟨"income", none⟩] }]
        { income := some (.num 500000) }).totalAmount = 1000 := by
  refine ⟨?_, ?_, ?_, ?_⟩
  · intro calcStr u base q hq hnz
    simp only [applyFactor, hq, optTruthy, truthy, jsLT, jsGT, toNumber]
    simp [hnz]
  all_goals
    simp only [calculateFees, processFee, applyFactor, waiverMatches, optTruthy, truthy,
      jsLT, jsGT, jsGE, toNumber, getML, jsOrStr, List.foldlM, List.foldl, List.length,
      List.head?]
    norm_num

/-- Witness for C3 (amended) at a concrete input: income 250000 halves a
base amount of 1000. -/
theorem income_factor_truthy_witness :
    applyFactor { income := some (.num 250000) } 1000 ⟨"income", none⟩ = 500 := by
  have h := income_factor_truthy.1 none { income := some (.num 250000) } 1000 250000
    rfl (by norm_num)
  norm_num at h
  exact h

/-- C2 / the failing input: a fee rule whose waiver declares a non-empty
eligibility set but no `description` subdocument.  When the waiver matches
(`senior` with age 65) the source evaluates `fee.waiver.description.en`,
which raises a `TypeError` on the absent subdocument; the surrounding
`catch` then discards the whole calculation and returns the error object —
the waiver is never recorded.  The second conjunct shows the same rule with
a description behaves exactly as the claim describes (waived, excluded from
total and breakdown, income factor skipped), pinning the crash on the
missing optional field. -/
theorem waiver_missing_description_bug :
    (calculateFees
        [{ feeType := "application", name := [("en", "Application Fee")], amount := 1000,
           variableFactors := [⟨"income", none⟩],
           waiver := some { eligibility := ["senior"] } }]
        { age := some (.num 65), income := some (.num 1500000) } =
      { totalAmount := 0, currency := "INR", breakdown := [],
        error := some "Error calculating fees" }) ∧
    (calculateFees
        [{ feeType := "application", name := [("en", "Application Fee")], amount := 1000,
           variableFactors := [⟨"income", none⟩],
           waiver := some
             { eligibility := ["senior"],
               description := some [("en", "Senior citizen waiver")] } }]
        { age := some (.num 65), income := some (.num 1500000) } =
      { totalAmount := 0, currency := "INR", breakdown := [],
        waivers := some [⟨"application", some "Application Fee", 1000,
          "Senior citizen waiver"⟩] }) :=
  ⟨by decide, by decide⟩

/-- The `invalidDocuments` entry a submitted document contributes, when it
does. -/
def invalidEntryOf (reqs : List Requirement) (d : DocObj) : Option InvalidDoc :=
  match reqs.find? (fun r => r.documentType == d.type) with
  | none => some ⟨d.type, "Document type not required for this service"⟩
  | some req =>
    if typeFails req d then
      some ⟨d.type, "Invalid file type. Allowed: " ++
        String.intercalate ", " req.allowedFileTypes⟩
    else if sizeFails req d then
      some ⟨d.type, "File too large. Maximum size: " ++
        toString (req.maxFileSizeKB.getD 0) ++ "KB"⟩
    else none

/-- The `validDocuments` entry a submitted document contributes, when it
does. -/
def validEntryOf (reqs : List Requirement) (d : DocObj) : Option ValidDoc :=
  match reqs.find? (fun r => r.documentType == d.type) with
  | none => none
  | some req =>
    if typeFails req d then none
    else if sizeFails req d then none
    else some ⟨d.type, getML req.name "en"⟩

/-- Whether a requirement goes unmet by a submission (mandatory and no
document of its type submitted). -/
def unmetMandatory (docs : List DocObj) (r : Requirement) : Bool :=
  r.isMandatory && !(docs.any (fun d => d.type == r.documentType))

theorem reqStep_foldl (docs : List DocObj) :
    ∀ (reqs : List Requirement) (acc : DocAcc),
    reqs.foldl (reqStep docs) acc =
      { valid := acc.valid && !(reqs.any (unmetMandatory docs)),
        validDocuments := acc.validDocuments,
        invalidDocuments := acc.invalidDocuments,
        missingMandatory := acc.missingMandatory ++
          (reqs.filter (unmetMandatory docs)).map
            (fun r => .entry r.documentType (getML r.name "en")) } := by
  intro reqs
  induction reqs with
  | nil => intro acc; simp
  | cons r rs ih =>
    intro acc
    by_cases hm : r.isMandatory
    · by_cases hf : docs.any (fun d => d.type == r.documentType)
      · simp [reqStep, unmetMandatory, hm, hf, ih, Bool.and_assoc]
      · simp [reqStep, unmetMandatory, hm, hf, ih]
    · simp [reqStep, unmetMandatory, hm, ih, Bool.and_assoc]

theorem docStep_foldl (reqs : List Requirement) :
    ∀ (docs : List DocObj) (acc : DocAcc),
    docs.foldl (docStep reqs) acc =
      { valid := acc.valid && !(docs.any (docFails reqs)),
        validDocuments := acc.validDocuments ++ docs.filterMap (validEntryOf reqs),
        invalidDocuments := acc.invalidDocuments ++ docs.filterMap (invalidEntryOf reqs),
        missingMandatory := acc.missingMandatory } := by
  intro docs
  induction docs with
  | nil => intro acc; simp
  | cons d ds ih =>
    intro acc
    rcases hfr : reqs.find? (fun r => r.documentType == d.type) with _ | req
    · simp [docStep, docFails, invalidEntryOf, validEntryOf, hfr, ih]
    · by_cases ht : typeFails req d
      · simp [docStep, docFails, invalidEntryOf, validEntryOf, hfr, ht, ih, Bool.and_assoc]
      · by_cases hs : sizeFails req d
        · simp [docStep, docFails, invalidEntryOf, validEntryOf, hfr, ht, hs, ih,
            Bool.and_assoc]
        · simp [docStep, docFails, invalidEntryOf, validEntryOf, hfr, ht, hs, ih]

/-- C6: on a well-shaped submission, `validateDocuments` fails validation
exactly when some mandatory requirement has no document of matching type or
some submitted document trips its requirement's file-type or file-size
check; a document whose type matches no requirement is recorded in
`invalidDocuments` but never flips `valid` by itself; and every unmet
mandatory requirement is recorded in `missingMandatory` and forces
`valid = false`. -/
theorem document_validation (reqs : List Requirement) (docs : List DocObj) :
    ((validateDocuments reqs (some docs)).valid = false ↔
      (∃ r ∈ reqs, r.isMandatory = true ∧ ∀ d ∈ docs, d.type ≠ r.documentType) ∨
      (∃ d ∈ docs, docFails reqs d = true)) ∧
    (∀ d ∈ docs, reqs.find? (fun r => r.documentType == d.type) = none →
      (⟨d.type, "Document type not required for this service"⟩ : InvalidDoc) ∈
        (validateDocuments reqs (some docs)).invalidDocuments) ∧
    (∀ r ∈ reqs, r.isMandatory = true → (∀ d ∈ docs, d.type ≠ r.documentType) →
      MissingDoc.entry r.documentType (getML r.name "en") ∈
        (validateDocuments reqs (some docs)).missingMandatory ∧
      (validateDocuments reqs (some docs)).valid = false) := by
  have hun : ∀ r : Requirement, unmetMandatory docs r = true ↔
      (r.isMandatory = true ∧ ∀ d ∈ docs, d.type ≠ r.documentType) := by
    intro r
    simp [unmetMandatory]
  have hvalid : (validateDocuments reqs (some docs)).valid = false ↔
      (∃ r ∈ reqs, r.isMandatory = true ∧ ∀ d ∈ docs, d.type ≠ r.documentType) ∨
      (∃ d ∈ docs, docFails reqs d = true) := by
    simp only [validateDocuments]
    rw [reqStep_foldl, docStep_foldl]
    simp only [Bool.true_and]
    constructor
    · intro h
      rcases hA : reqs.any (unmetMandatory docs) with _ | _
      · rcases hB : docs.any (docFails reqs) with _ | _
        · rw [hA, hB] at h; simp at h
        · right
          rcases List.any_eq_true.1 hB with ⟨d, hd, hfd⟩
          exact ⟨d, hd, hfd⟩
      · left
        rcases List.any_eq_true.1 hA with ⟨r, hr, hur⟩
        exact ⟨r, hr, (hun r).1 hur⟩
    · intro h
      rcases h with ⟨r, hr, hprop⟩ | ⟨d, hd, hfd⟩
      · have : reqs.any (unmetMandatory docs) = true :=
          List.any_eq_true.2 ⟨r, hr, (hun r).2 hprop⟩
        simp [this]
      · have : docs.any (docFails reqs) = true := List.any_eq_true.2 ⟨d, hd, hfd⟩
        simp [this]
  refine ⟨hvalid, ?_, ?_⟩
  · intro d hd hfind
    simp only [validateDocuments]
    rw [reqStep_foldl, docStep_foldl]
    simp only [List.nil_append]
    refine List.mem_filterMap.2 ⟨d, hd, ?_⟩
    unfold invalidEntryOf
    rw [hfind]
  · intro r hr hm hnone
    refine ⟨?_, hvalid.2 (Or.inl ⟨r, hr, hm, hnone⟩)⟩
    simp only [validateDocuments]
    rw [reqStep_foldl, docStep_foldl]
    simp only [List.nil_append]
    exact List.mem_map.2 ⟨r, List.mem_filter.2 ⟨hr, (hun r).2 ⟨hm, hnone⟩⟩, rfl⟩

/-- Witness for C6 at a concrete input: with a mandatory `aadhar`
requirement and only a `pan` document submitted, the missing mandatory
requirement is recorded and validation fails. -/
theorem document_validation_witness :
    MissingDoc.entry "aadhar" (some "Aadhar Card") ∈
      (validateDocuments
        [{ documentType := "aadhar", name := [("en", "Aadhar Card")] }]
        (some [⟨"pan", "scan.pdf", 100⟩])).missingMandatory ∧
    (validateDocuments
        [{ documentType := "aadhar", name := [("en", "Aadhar Card")] }]
        (some [⟨"pan", "scan.pdf", 100⟩])).valid = false :=
  (document_validation
      [{ documentType := "aadhar", name := [("en", "Aadhar Card")] }]
      [⟨"pan", "scan.pdf", 100⟩]).2.2
    ⟨"aadhar", [("en", "Aadhar Card")], true, [], none⟩ (by simp) rfl
    (by intro d hd; simp at hd; simp [hd])

/-- Counterexample for C7 as stated: the claim asserts that an exception is
raised when the `documents` argument is not an array, but the source's
guard returns an ordinary result object on that input — here the non-array
call evaluates to plain data (`valid = false` with the invalid-format
message and the mandatory types listed), so no exception can be raised. -/
theorem nonarray_documents_counterexample :
    validateDocuments
        [{ documentType := "aadhar", name := [("en", "Aadhar Card")] }] none =
      { valid := false, message := "No documents provided or invalid format",
        missingMandatory := [.bare "aadhar"] } := by
  decide

/-- C7 as amended: the engine never throws — failed criteria and invalid
documents are reported as data, and a malformed (non-array) `documents`
argument is also reported as data: `valid = false`, the invalid-format
message, and `missingMandatory` listing the document type of exactly the
mandatory requirements. -/
theorem nonarray_documents_returns_data (reqs : List Requirement) :
    ((validateDocuments reqs none).valid = false) ∧
    ((validateDocuments reqs none).message = "No documents provided or invalid format") ∧
    ((validateDocuments reqs none).invalidDocuments = []) ∧
    (∀ t : String, MissingDoc.bare t ∈ (validateDocuments reqs none).missingMandatory ↔
      ∃ r ∈ reqs, r.isMandatory = true ∧ r.documentType = t) := by
  refine ⟨rfl, rfl, rfl, ?_⟩
  intro t
  simp only [validateDocuments, List.mem_map, List.mem_filter]
  constructor
  · rintro ⟨r, ⟨hr, hm⟩, ht⟩
    exact ⟨r, hr, hm, by simpa using ht⟩
  · rintro ⟨r, hr, hm, ht⟩
    exact ⟨r, ⟨hr, hm⟩, by simp [ht]⟩

/-- Witness for C7 (amended) at a concrete input: a single mandatory
`aadhar` requirement appears in the `missingMandatory` list of the
non-array result. -/
theorem nonarray_documents_returns_data_witness :
    MissingDoc.bare "aadhar" ∈
      (validateDocuments
        [{ documentType := "aadhar", name := [("en", "Aadhar Card")] }]
        none).missingMandatory :=
  ((nonarray_documents_returns_data
      [{ documentType := "aadhar", name := [("en", "Aadhar Card")] }]).2.2.2 "aadhar").mpr
    ⟨⟨"aadhar", [("en", "Aadhar Card")], true, [], none⟩, by simp, rfl, rfl⟩

end SwarSeva
